import Mathlib

/-!
Shallow embedding of src/src/hello_app/hello_main.py.

The script issues one GET request to a constant URL, branches on the
status code, and prints either a success line followed by the parsed
JSON body, or a single failure line.  Transport failures and JSON parse
failures are uncaught.  We model a run as a trace: the list of HTTP
requests issued, the list of items printed to stdout, and an optional
uncaught fault.  The JSON parser of the `requests` library is a
parameter (a function String to Option Json), since its code is not part
of this repository; printing a parsed object is modelled as emitting the
structured JSON value.
-/

namespace HelloApp

/-- A JSON value, the shape of what `response.json()` returns. -/
inductive Json where
  | null : Json
  | bool (b : Bool) : Json
  | num (n : Int) : Json
  | str (s : String) : Json
  | arr (xs : List Json) : Json
  | obj (fields : List (String × Json)) : Json

/-- An HTTP response: a numeric status code and a raw body. -/
structure HttpResponse where
  status_code : Nat
  body : String
deriving DecidableEq

/-- Outcome of the network call `requests.get`: either a response, or a
transport-level failure (DNS, connection refused, timeout, TLS). -/
inductive NetResult where
  | ok (r : HttpResponse) : NetResult
  | fault : NetResult
deriving DecidableEq

/-- An outbound HTTP request as `requests.get(url)` builds it: method GET,
the given URL, and library defaults everywhere else (no custom headers,
no query parameters, no body, no timeout override). -/
structure HttpRequest where
  method : String
  url : String
  headers : List (String × String)
  params : List (String × String)
  reqBody : Option String
  timeout : Option Nat
deriving DecidableEq

/-- `requests.get(u)` issues this request. -/
def getRequest (u : String) : HttpRequest :=
  { method := "GET", url := u, headers := [], params := [],
    reqBody := none, timeout := none }

/-- One item printed to stdout: a literal text line, or the textual
representation of a parsed JSON value (as `print(response.json())` emits). -/
inductive OutputItem where
  | text (s : String) : OutputItem
  | json (j : Json) : OutputItem

/-- Kind of uncaught fault that terminates the process. -/
inductive FaultKind where
  | transport : FaultKind
  | parseError : FaultKind
deriving DecidableEq

/-- Observable trace of one run: requests issued, stdout items in order,
and the uncaught fault, if any, that ended the run. -/
structure RunTrace where
  requests : List HttpRequest
  output : List OutputItem
  fault : Option FaultKind

/-- The constant URL from line 4 of hello_main.py. -/
def apiUrl : String := "https://api.github.com"

/-- The success indicator line from line 7 of hello_main.py. -/
def successLine : String := "Success! API data received:"

/-- The failure indicator line from line 10 of hello_main.py. -/
def failureLine : String := "Failed to retrieve data."

/-- The function `main` of hello_main.py, parameterised by the JSON parser
of the `requests` library and by the network outcome.  It sends one GET
request; on a transport fault nothing has been printed and the fault
propagates; on a response it branches on `status_code == 200`: the success
line is printed, then `response.json()` is parsed and printed (a parse
failure propagates after the success line); otherwise the failure line is
printed. -/
def pyMain (parseJson : String → Option Json) (net : NetResult) : RunTrace :=
  match net with
  | NetResult.fault =>
      { requests := [getRequest apiUrl], output := [],
        fault := some FaultKind.transport }
  | NetResult.ok response =>
      if response.status_code == 200 then
        match parseJson response.body with
        | some j =>
            { requests := [getRequest apiUrl],
              output := [OutputItem.text successLine, OutputItem.json j],
              fault := none }
        | none =>
            { requests := [getRequest apiUrl],
              output := [OutputItem.text successLine],
              fault := some FaultKind.parseError }
      else
        { requests := [getRequest apiUrl],
          output := [OutputItem.text failureLine],
          fault := none }

/-- The trace of a module whose top level is only `def main` and the
`if __name__ == "__main__": main()` guard: `main` runs exactly when the
module name is `__main__`; importing (any other name) does nothing. -/
def moduleRun (parseJson : String → Option Json) (net : NetResult)
    (moduleName : String) : RunTrace :=
  if moduleName == "__main__" then pyMain parseJson net
  else { requests := [], output := [], fault := none }

/-- Running the script as a process: the module executes under the name
`__main__`; the command-line arguments and environment are never read. -/
def processRun (parseJson : String → Option Json) (net : NetResult)
    (_argv : List String) (_env : List (String × String)) : RunTrace :=
  moduleRun parseJson net "__main__"

/-- Exit code of a run: 0 on normal completion, 1 (the Python default for
an uncaught exception) on a fault. -/
def exitCode (t : RunTrace) : Nat :=
  match t.fault with
  | none => 0
  | some _ => 1

/-- A sequence of independent runs of `main`, one per network outcome;
no state is carried from one run to the next. -/
def runSequence (parseJson : String → Option Json)
    (nets : List NetResult) : List RunTrace :=
  nets.map (pyMain parseJson)

/-- A concrete JSON parser that recognises only the body of the mocked
200-endpoint example, for witnesses. -/
def okBody : String := "\x7b\"ok\": true\x7d"

/-- The parsed form of `okBody`. -/
def okJson : Json := Json.obj [("ok", Json.bool true)]

/-- Concrete parser: parses `okBody`, rejects everything else. -/
def okParse : String → Option Json :=
  fun s => if s = okBody then some okJson else none

/-- Concrete parser that rejects every body, for parse-fault witnesses. -/
def noParse : String → Option Json := fun _ => none

/-- Claim C1: for every response with status code 200 whose body parses as
JSON, main prints the success indicator line and then the parsed body, in
that order and nothing else, and completes without a fault. -/
theorem main_status200_valid_json_output (p : String → Option Json)
    (r : HttpResponse) (j : Json) (h200 : r.status_code = 200)
    (hp : p r.body = some j) :
    pyMain p (NetResult.ok r) =
      { requests := [getRequest apiUrl],
        output := [OutputItem.text successLine, OutputItem.json j],
        fault := none } := by
  simp [pyMain, h200, hp]

/-- Witness for C1 at the mocked 200 endpoint with body okBody. -/
theorem main_status200_valid_json_output_witness :
    pyMain okParse (NetResult.ok { status_code := 200, body := okBody }) =
      { requests := [getRequest apiUrl],
        output := [OutputItem.text successLine, OutputItem.json okJson],
        fault := none } :=
  main_status200_valid_json_output okParse
    { status_code := 200, body := okBody } okJson rfl (by simp [okParse])

/-- Claim C2: for every response with status code other than 200, main
prints exactly the failure line and nothing else, completes without a
fault, and the body is never parsed (the trace is the same for every
parser). -/
theorem main_non200_prints_failure_only (p q : String → Option Json)
    (r : HttpResponse) (h : r.status_code ≠ 200) :
    pyMain p (NetResult.ok r) =
      { requests := [getRequest apiUrl],
        output := [OutputItem.text failureLine], fault := none } ∧
    pyMain p (NetResult.ok r) = pyMain q (NetResult.ok r) := by
  have hb : (r.status_code == 200) = false := by simp [h]
  constructor <;> simp [pyMain, hb]

/-- Witness for C2 at the mocked 404 endpoint. -/
theorem main_non200_prints_failure_only_witness :
    pyMain noParse (NetResult.ok { status_code := 404, body := "" }) =
      { requests := [getRequest apiUrl],
        output := [OutputItem.text failureLine], fault := none } :=
  (main_non200_prints_failure_only noParse okParse
    { status_code := 404, body := "" } (by decide)).1

/-- Counterexample to Claim C3 as stated: at status 200 with the non-JSON
body not-json, the parse fault does propagate, but the success indicator
line HAS been printed, so it is false that no success message is printed. -/
theorem parse_fault_success_line_cex :
    (pyMain noParse (NetResult.ok { status_code := 200, body := "not-json" })).fault
        = some FaultKind.parseError ∧
    OutputItem.text successLine ∈
      (pyMain noParse
        (NetResult.ok { status_code := 200, body := "not-json" })).output := by
  constructor
  · rfl
  · simp [pyMain, noParse]

/-- Claim C3 (amended): for every response with status 200 whose body does
not parse as JSON, the parse fault propagates uncaught, no parsed-body
output is emitted, and the only line printed before the fault is the
success indicator line. -/
theorem main_parse_fault_after_success (p : String → Option Json)
    (r : HttpResponse) (h200 : r.status_code = 200) (hp : p r.body = none) :
    pyMain p (NetResult.ok r) =
      { requests := [getRequest apiUrl],
        output := [OutputItem.text successLine],
        fault := some FaultKind.parseError } := by
  simp [pyMain, h200, hp]

/-- Witness for amended C3 at status 200 with body not-json. -/
theorem main_parse_fault_after_success_witness :
    pyMain noParse (NetResult.ok { status_code := 200, body := "not-json" }) =
      { requests := [getRequest apiUrl],
        output := [OutputItem.text successLine],
        fault := some FaultKind.parseError } :=
  main_parse_fault_after_success noParse
    { status_code := 200, body := "not-json" } rfl rfl

/-- Claim C4: on a transport-level failure of the GET request the fault
propagates uncaught (whatever the parser is) and no output line has been
printed before it. -/
theorem transport_fault_no_output (p : String → Option Json) :
    pyMain p NetResult.fault =
      { requests := [getRequest apiUrl], output := [],
        fault := some FaultKind.transport } := rfl

/-- Claim C5: every run of the process issues exactly one outbound GET
request, to the constant URL, with no custom headers, no query parameters,
no request body, no timeout override and no retries; the command-line
arguments and the environment are never consumed. -/
theorem single_fixed_get_request (p : String → Option Json) (net : NetResult)
    (argv : List String) (env : List (String × String)) :
    (processRun p net argv env).requests =
      [{ method := "GET", url := "https://api.github.com", headers := [],
         params := [], reqBody := none, timeout := none }] ∧
    processRun p net argv env = processRun p net [] [] := by
  refine ⟨?_, rfl⟩
  cases net with
  | fault => rfl
  | ok r =>
    by_cases hb : (r.status_code == 200) = true
    · cases hp : p r.body <;>
        simp [processRun, moduleRun, pyMain, hb, hp, getRequest, apiUrl]
    · simp [processRun, moduleRun, pyMain, hb, getRequest, apiUrl]

/-- Claim C6: the exit code is 0 exactly on normal completion, that is,
when a response arrived and either its status is not 200 (the failure
branch) or its body parses as JSON; every transport or parse fault exits
non-zero. -/
theorem exit_code_zero_iff (p : String → Option Json) (net : NetResult) :
    exitCode (pyMain p net) = 0 ↔
      ∃ r, net = NetResult.ok r ∧
        (r.status_code ≠ 200 ∨ ∃ j, p r.body = some j) := by
  cases net with
  | fault => simp [pyMain, exitCode]
  | ok r =>
    by_cases h200 : r.status_code = 200
    · cases hp : p r.body with
      | none => simp [pyMain, exitCode, h200, hp]
      | some j => simp [pyMain, exitCode, h200, hp]
    · have hb : (r.status_code == 200) = false := by simp [h200]
      simp [pyMain, exitCode, hb, h200]

/-- Claim C7: main is deterministic in the response: in any sequence of
runs, two runs that receive the identical network outcome produce the
identical trace (each run depends only on its own response, no state is
carried between runs). -/
theorem run_determinism (p : String → Option Json) (nets : List NetResult)
    (i j : Nat) (h : nets.get? i = nets.get? j) :
    (runSequence p nets).get? i = (runSequence p nets).get? j := by
  simp only [List.get?_eq_getElem?] at h
  simp only [runSequence, List.get?_eq_getElem?, List.getElem?_map, h]

/-- Witness for C7: two runs against the same outcome agree. -/
theorem run_determinism_witness :
    (runSequence noParse [NetResult.fault, NetResult.fault]).get? 0 =
      (runSequence noParse [NetResult.fault, NetResult.fault]).get? 1 :=
  run_determinism noParse [NetResult.fault, NetResult.fault] 0 1 rfl

/-- Claim C8: when the status code is 200 the success indicator line is
the first item printed, so any parse fault occurs strictly after the
success line has been emitted. -/
theorem success_line_precedes_parse_fault (p : String → Option Json)
    (r : HttpResponse) (h200 : r.status_code = 200) :
    ((pyMain p (NetResult.ok r)).output).head? =
        some (OutputItem.text successLine) ∧
    (p r.body = none →
      (pyMain p (NetResult.ok r)).fault = some FaultKind.parseError) := by
  cases hp : p r.body with
  | none => simp [pyMain, h200, hp]
  | some j => simp [pyMain, h200, hp]

/-- Witness for C8 at status 200 with an unparseable body. -/
theorem success_line_precedes_parse_fault_witness :
    ((pyMain noParse (NetResult.ok { status_code := 200, body := "x" })).output).head?
        = some (OutputItem.text successLine) ∧
    (pyMain noParse (NetResult.ok { status_code := 200, body := "x" })).fault
        = some FaultKind.parseError :=
  ⟨(success_line_precedes_parse_fault noParse
      { status_code := 200, body := "x" } rfl).1,
   (success_line_precedes_parse_fault noParse
      { status_code := 200, body := "x" } rfl).2 rfl⟩

/-- Claim C9: the branch tests exact equality with 200, so every other
2xx status code takes the failure branch and prints the failure line. -/
theorem other_2xx_prints_failure (p : String → Option Json)
    (r : HttpResponse) (h1 : 200 ≤ r.status_code)
    (h2 : r.status_code < 300) (h3 : r.status_code ≠ 200) :
    pyMain p (NetResult.ok r) =
      { requests := [getRequest apiUrl],
        output := [OutputItem.text failureLine], fault := none } := by
  have hb : (r.status_code == 200) = false := by simp [h3]
  simp [pyMain, hb]

/-- Witness for C9 at the 2xx status codes 201, 204 and 206. -/
theorem other_2xx_prints_failure_witness :
    pyMain noParse (NetResult.ok { status_code := 201, body := "" }) =
      { requests := [getRequest apiUrl],
        output := [OutputItem.text failureLine], fault := none } ∧
    pyMain noParse (NetResult.ok { status_code := 204, body := "" }) =
      { requests := [getRequest apiUrl],
        output := [OutputItem.text failureLine], fault := none } ∧
    pyMain noParse (NetResult.ok { status_code := 206, body := "" }) =
      { requests := [getRequest apiUrl],
        output := [OutputItem.text failureLine], fault := none } :=
  ⟨other_2xx_prints_failure noParse { status_code := 201, body := "" }
      (by decide) (by decide) (by decide),
   other_2xx_prints_failure noParse { status_code := 204, body := "" }
      (by decide) (by decide) (by decide),
   other_2xx_prints_failure noParse { status_code := 206, body := "" }
      (by decide) (by decide) (by decide)⟩

/-- Claim C10: importing the module (any module name other than the main
name) issues no request and prints nothing, while running it as the main
program runs main. -/
theorem import_has_no_side_effects (p : String → Option Json)
    (net : NetResult) (moduleName : String) :
    (moduleName ≠ "__main__" →
      moduleRun p net moduleName =
        { requests := [], output := [], fault := none }) ∧
    moduleRun p net "__main__" = pyMain p net := by
  constructor
  · intro h
    have hb : (moduleName == "__main__") = false := by simp [h]
    simp [moduleRun, hb]
  · simp [moduleRun]

/-- Witness for C10 under the import name hello_app.hello_main. -/
theorem import_has_no_side_effects_witness :
    moduleRun noParse NetResult.fault "hello_app.hello_main" =
      { requests := [], output := [], fault := none } ∧
    moduleRun noParse NetResult.fault "__main__" =
      pyMain noParse NetResult.fault :=
  ⟨(import_has_no_side_effects noParse NetResult.fault
      "hello_app.hello_main").1 (by decide),
   (import_has_no_side_effects noParse NetResult.fault "__main__").2⟩

end HelloApp
